import Mathlib

/-!
# waypoint_follower2.cpp : a shallow embedding

The node keeps its state in process-wide variables (`waypoint_array`,
`current_waypoint_index`, `enabled`, the frame names); here they are the fields
of `State` and every function takes and returns the state explicitly.

* `double` is modelled by an arbitrary linear ordered field `K` with exact
  arithmetic: `ℚ` runs the definitions, `ℝ` gives `sqrt` its meaning.
* Library calls the program does not define (`sqrt`, `atan2`, `getRPY`,
  `LLtoUTM`) are the fields of `Math`; the tf tree as one call sees it is a
  `Tf`, whose lookups answer `none` where the C++ throws or reports failure.
* `int` is `Int`; where an `int` meets a `size_t` it is converted by
  `toSizeT`, i.e. reduced modulo `2 ^ 64`, and `size()` is a `size_t` too.
* Of `std_msgs/Header` only `frame_id` is kept: `seq` and `stamp` are written
  but never read by the program.
* Undefined behaviour is explicit: `loop` answers `none` when it reads the
  waypoints out of bounds, `convertUTMtoMap` answers `none` when control
  reaches its end without a `return`, and loading records in `undefined` that
  it stopped there.
-/

namespace WaypointFollower

set_option linter.unusedSectionVars false

/-! ## Messages -/

/-- The geometry_msgs `Point` and `Vector3` messages. -/
structure Point (K : Type) where
  x : K
  y : K
  z : K
deriving DecidableEq, Repr

/-- The geometry_msgs `Quaternion` message. -/
structure Quaternion (K : Type) where
  x : K
  y : K
  z : K
  w : K
deriving DecidableEq, Repr

/-- The geometry_msgs `Pose` message. -/
structure Pose (K : Type) where
  position : Point K
  orientation : Quaternion K
deriving DecidableEq, Repr

/-- The std_msgs `Header` message, reduced to its frame name. -/
structure Header where
  frame_id : String
deriving DecidableEq, Repr

/-- The geometry_msgs `PointStamped` message. -/
structure PointStamped (K : Type) where
  header : Header
  point : Point K
deriving DecidableEq, Repr

/-- The geometry_msgs `PoseStamped` message. -/
structure PoseStamped (K : Type) where
  header : Header
  pose : Pose K
deriving DecidableEq, Repr

/-- The `transform` part of a geometry_msgs `TransformStamped` message. -/
structure Transform (K : Type) where
  translation : Point K
  rotation : Quaternion K
deriving DecidableEq, Repr

/-- The geometry_msgs `Twist` message. -/
structure Twist (K : Type) where
  linear : Point K
  angular : Point K
deriving DecidableEq, Repr

/-- The nav_msgs `Path` message. -/
structure Path (K : Type) where
  header : Header
  poses : List (PoseStamped K)
deriving DecidableEq, Repr

/-- One element of an XmlRpc array on the parameter server: `loadParams` reads
the elements of type `TypeDouble` and `TypeInt` and passes over every other. -/
inductive XmlRpcValue (K : Type) where
  | double (d : K)
  | int (i : Int)
  | other
deriving DecidableEq, Repr

/-! ## Collaborators -/

/-- The numeric library routines the program calls. -/
structure Math (K : Type) where
  /-- The libm routine `sqrt`. -/
  sqrt : K → K
  /-- The libm routine `atan2 (y, x)`. -/
  atan2 : K → K → K
  /-- The call `tf2::Matrix3x3 (quat).getRPY (roll, pitch, yaw)`. -/
  getRPY : Quaternion K → K × K × K
  /-- The call `NavsatConversions::LLtoUTM`, giving `(northing, easting)`. -/
  LLtoUTM : K → K → K × K

/-- The transform tree as one call of the program sees it. -/
structure Tf (K : Type) where
  /-- The calls `waitForTransform` and `transformPoint (frame_out, p)` for a
  point of `frame_in`; `none` when a `TransformException` is thrown. -/
  transformPoint : (frame_out frame_in : String) → Point K → Option (Point K)
  /-- The calls `waitForTransform` and `transformPose (frame_out, p)` for a
  pose of `frame_in`; `none` when a `TransformException` is thrown. -/
  transformPose : (frame_out frame_in : String) → Pose K → Option (Pose K)
  /-- The calls `tfbuffer.canTransform` and `tfbuffer.lookupTransform` at
  `ros::Time (0)`; `none` when either fails. -/
  lookupTransform : (frame1 frame2 : String) → Option (Transform K)

/-- The private parameters of the node; `none` is a parameter that is not set. -/
structure Params (K : Type) where
  baselink_frame : Option String
  map_frame : Option String
  odom_frame : Option String
  launch_frame : Option String
  include_start_pose : Option Bool
  waypoints : Option (List (XmlRpcValue K))
  gps_waypoints : Option (List (XmlRpcValue K))

/-! ## Program state -/

/-- The global variables of the node. -/
structure State (K : Type) where
  waypoint_array : List (PoseStamped K)
  current_waypoint_index : Int
  map_frame : String
  odom_frame : String
  baselink_frame : String
  launch_frame : String
  include_start_pose : Bool
  enabled : Bool
deriving DecidableEq, Repr

/-- The values `loop` prints on each tick that reaches the control law. -/
structure TickLog (K : Type) where
  dx : K
  dy : K
  dist : K
  ang : K
deriving DecidableEq, Repr

/-- What one call of `loop` leaves behind: the globals, the path it published,
the velocity command if one was published, and the printed values. -/
structure Outcome (K : Type) where
  state : State K
  path : Path K
  cmd_vel : Option (Twist K)
  log : Option (TickLog K)
deriving DecidableEq, Repr

/-- What the `for` loop over the geographic values leaves behind: the waypoints
it pushed, and whether it ran into the undefined end of `convertUTMtoMap`, from
where on nothing is defined and nothing more is pushed. -/
structure GpsLoaded (K : Type) where
  waypoints : List (PoseStamped K)
  undefined : Bool
deriving DecidableEq, Repr

/-- What `loadParams` leaves behind: the globals, the error line it printed, if
any, and whether it ran into the undefined end of `convertUTMtoMap`; `state`
then holds the globals at that point. -/
structure Loaded (K : Type) where
  state : State K
  error : Option String
  undefined : Bool
deriving DecidableEq, Repr

section Program

variable {K : Type} [LinearOrderedField K]

/-- A default-constructed `Point`. -/
def Point.zero : Point K := { x := 0, y := 0, z := 0 }

/-- A default-constructed `Quaternion`. -/
def Quaternion.zero : Quaternion K := { x := 0, y := 0, z := 0, w := 0 }

/-- A default-constructed `Pose`. -/
def Pose.zero : Pose K := { position := Point.zero, orientation := Quaternion.zero }

/-- The globals before `main` runs (lines 35-44). -/
def initialState : State K :=
  { waypoint_array := []
    current_waypoint_index := -1
    map_frame := ""
    odom_frame := ""
    baselink_frame := ""
    launch_frame := ""
    include_start_pose := false
    enabled := false }

/-- Conversion of an `int` to `size_t`. -/
def toSizeT (i : Int) : Nat := (i % 2 ^ 64).toNat

/-- The call `waypoint_array.waypoints.size ()`, a `size_t`. -/
def size {α : Type} (v : List α) : Nat := v.length % 2 ^ 64

/-! ## Helper functions (lines 58-135) -/

/-- Lines 59-72. -/
def convertLatLongToUTM (m : Math K) (lati longi : K) : PointStamped K :=
  let utm := m.LLtoUTM lati longi
  let utm_northing := utm.1
  let utm_easting := utm.2
  { header := { frame_id := "utm" }
    point := { x := utm_easting, y := utm_northing, z := 0 } }

/-- Lines 75-93: the point after the call and the value returned. When
`transformPoint` throws, the point is untouched and `false` is returned. When
it succeeds, the point is replaced and control reaches the end of the function,
which is declared `bool`, without a `return`: the behaviour is undefined, and
the result is `none`. -/
def convertUTMtoMap (tf : Tf K) (map_frame : String) (p : PointStamped K) :
    Option (PointStamped K × Bool) :=
  let frame_in := "utm"
  let frame_out := map_frame
  match tf.transformPoint frame_out frame_in p.point with
  | some _ => none
  | none => some (p, false)

/-- Lines 97-118: the pose after the call, and whether it was converted. -/
def convertPoseFrame (tf : Tf K) (p : Pose K) (frame_in frame_out : String) :
    Pose K × Bool :=
  match tf.transformPose frame_out frame_in p with
  | some new_pose => (new_pose, true)
  | none => (p, false)

/-- Lines 122-135. -/
def lookupTransform (tf : Tf K) (frame1 frame2 : String) : Option (Transform K) :=
  tf.lookupTransform frame1 frame2

/-! ## Publisher functions (lines 143-175) -/

/-- The body of the `for` loop of `publishWaypointPaths` (lines 164-171) for
the stored waypoint `ws`: the entry pushed onto `vec`. -/
def pathEntry (tf : Tf K) (map_frame : String) (ws : PoseStamped K) : PoseStamped K :=
  let pose :=
    if ws.header.frame_id ≠ map_frame then
      (convertPoseFrame tf ws.pose ws.header.frame_id map_frame).1
    else ws.pose
  { header := { frame_id := map_frame }, pose := pose }

/-- The `for` loop of `publishWaypointPaths` (lines 162-172) from the counter
value `i` on, with `vec` the poses pushed so far. The test `i < size ()`
compares an `int` with a `size_t`, so `i` is converted to `size_t` first. -/
def pathLoop (tf : Tf K) (s : State K) (i : Int) (vec : List (PoseStamped K)) :
    List (PoseStamped K) :=
  if h : toSizeT i < size s.waypoint_array then
    if i < 0 then pathLoop tf s (i + 1) vec
    else
      let ws := s.waypoint_array.get ⟨toSizeT i, lt_of_lt_of_le h (Nat.mod_le _ _)⟩
      pathLoop tf s (i + 1) (vec ++ [pathEntry tf s.map_frame ws])
  else vec
termination_by 2 ^ 64 - toSizeT i
decreasing_by
  all_goals
    simp only [toSizeT, size] at h ⊢
    have : s.waypoint_array.length % 2 ^ 64 < 2 ^ 64 := Nat.mod_lt _ (by norm_num)
    omega

/-- Lines 143-175: the path handed to `pub_waypoint_paths`. -/
def publishWaypointPaths (tf : Tf K) (s : State K) : Path K :=
  let vec : List (PoseStamped K) :=
    if s.include_start_pose then
      let pose : Pose K := { Pose.zero with orientation := { Quaternion.zero with w := 1 } }
      let pose := (convertPoseFrame tf pose s.baselink_frame s.map_frame).1
      [{ header := { frame_id := s.baselink_frame }, pose := pose }]
    else []
  { header := { frame_id := s.map_frame }
    poses := pathLoop tf s s.current_waypoint_index vec }

/-! ## Looping (lines 187-254) -/

/-- Lines 221-223: the heading error from the bearing `wp_ang` and `yaw`. -/
def headingError (wp_ang yaw : K) : K :=
  let ang := wp_ang - yaw
  let ang := if ang > 3.1415 then ang - 2 * 3.1415 else ang
  let ang := if ang < -3.1415 then ang + 2 * 3.1415 else ang
  ang

/-- Lines 239-248: the angular command for the heading error `ang`. -/
def yawVelocity (m : Math K) (ang : K) : K :=
  let ang_abs := m.sqrt (ang * ang)
  let yaw_vel := if ang_abs > 0.2 then 1 else 5.0 * ang_abs
  if ang < 0 then -yaw_vel else yaw_vel

/-- Lines 196-204 and 212-253 of `loop`: what the tick does once the transform
`ts_map2base` of the robot is known and `ps` has been read from the waypoints;
`path` is the path published at the entry of `loop`. -/
def command (m : Math K) (s : State K) (path : Path K) (ts_map2base : Transform K)
    (ps : PoseStamped K) : Outcome K :=
  let x := ts_map2base.translation.x
  let y := ts_map2base.translation.y
  let yaw := (m.getRPY ts_map2base.rotation).2.2
  let wp_x := ps.pose.position.x
  let wp_y := ps.pose.position.y
  let dx := wp_x - x
  let dy := wp_y - y
  let wp_ang := m.atan2 dy dx
  let dist := m.sqrt (dx * dx + dy * dy)
  let ang := headingError wp_ang yaw
  let x_vel : K := if dist > 0.5 then 1 else 0
  let s1 : State K :=
    if dist > 0.5 then s
    else
      let index := s.current_waypoint_index + 1
      { s with
        current_waypoint_index := index
        enabled := if toSizeT index ≥ size s.waypoint_array then false else s.enabled }
  let yaw_vel := yawVelocity m ang
  { state := s1
    path := path
    cmd_vel := some
      { linear := { Point.zero with x := x_vel }
        angular := { Point.zero with z := yaw_vel } }
    log := some { dx := dx, dy := dy, dist := dist, ang := ang } }

/-- Lines 187-254, one control tick. The result is `none` when line 209 reads
`waypoint_array.waypoints` outside its bounds. -/
def loop (m : Math K) (tf : Tf K) (s : State K) : Option (Outcome K) :=
  let path := publishWaypointPaths tf s
  if s.enabled = false ∨ s.current_waypoint_index < 0 then
    some { state := s, path := path, cmd_vel := none, log := none }
  else
    match lookupTransform tf s.map_frame s.baselink_frame with
    | none => some { state := s, path := path, cmd_vel := none, log := none }
    | some ts_map2base =>
      match s.waypoint_array[toSizeT s.current_waypoint_index]? with
      | none => none
      | some ps => some (command m s path ts_map2base ps)

/-! ## Initialising functions (lines 276-368) -/

/-- Lines 298-306 and 331-339: the numbers of an XmlRpc array, in order. -/
def readValues : List (XmlRpcValue K) → List K
  | [] => []
  | XmlRpcValue.double d :: v => d :: readValues v
  | XmlRpcValue.int i :: v => (i : K) :: readValues v
  | XmlRpcValue.other :: v => readValues v

/-- Lines 295-310 and 328-343: the values of a list parameter, the empty
default when the parameter is not set. -/
def paramValues (v : Option (List (XmlRpcValue K))) : List K :=
  match v with
  | some v => readValues v
  | none => []

/-- Lines 317-326: the waypoints of the `for` loop over `waypoint_values`, two
values for each. It is entered with an even number of values only. -/
def localWaypoints (launch_frame : String) : List K → List (PoseStamped K)
  | x :: y :: rest =>
      { header := { frame_id := launch_frame }
        pose := { position := { x := x, y := y, z := 0 }
                  orientation := { Quaternion.zero with w := 1 } } }
        :: localWaypoints launch_frame rest
  | _ => []

/-- Lines 350-367: the `for` loop over `gps_values`, two values for each
waypoint. It is entered with an even number of values only. The value returned
by `convertUTMtoMap` is not read. -/
def gpsWaypoints (m : Math K) (tf : Tf K) (map_frame : String) : List K → GpsLoaded K
  | lati :: longi :: rest =>
      let ps := convertLatLongToUTM m lati longi
      match convertUTMtoMap tf map_frame ps with
      | none => { waypoints := [], undefined := true }
      | some (ps, _) =>
        let ws : PoseStamped K :=
          { header := ps.header
            pose := { position := { x := ps.point.x, y := ps.point.y, z := ps.point.z }
                      orientation := { x := 0, y := 0, z := 0, w := 1 } } }
        let r := gpsWaypoints m tf map_frame rest
        { waypoints := ws :: r.waypoints, undefined := r.undefined }
  | _ => { waypoints := [], undefined := false }

/-- Lines 276-368. -/
def loadParams (m : Math K) (tf : Tf K) (n_priv : Params K) (s : State K) : Loaded K :=
  let s := { s with enabled := true }
  let odom := n_priv.odom_frame.getD "odom"
  let s := { s with
    baselink_frame := n_priv.baselink_frame.getD "base_link"
    map_frame := n_priv.map_frame.getD "map"
    odom_frame := odom
    launch_frame := n_priv.launch_frame.getD odom
    include_start_pose := n_priv.include_start_pose.getD true }
  let waypoint_values : List K := paramValues n_priv.waypoints
  if waypoint_values.length % 2 ≠ 0 then
    { state := s, error := some "INCORRECT NUMBER OF WAYPOINT VALUES", undefined := false }
  else
    let s := { s with
      waypoint_array := s.waypoint_array ++ localWaypoints s.launch_frame waypoint_values }
    let gps_values : List K := paramValues n_priv.gps_waypoints
    if gps_values.length % 2 ≠ 0 then
      { state := s, error := some "INCORRECT NUMBER OF GPS WAYPOINT VALUES", undefined := false }
    else
      let r := gpsWaypoints m tf s.map_frame gps_values
      { state := { s with waypoint_array := s.waypoint_array ++ r.waypoints }
        error := none
        undefined := r.undefined }

/-! ## `main` (lines 371-391) -/

/-- Lines 372-380: the globals when `main` reaches its `while` loop; `none`
when loading ran into undefined behaviour. -/
def mainInit (m : Math K) (tf : Tf K) (n_priv : Params K) : Option (State K) :=
  let r := loadParams m tf n_priv initialState
  if r.undefined then none
  else some { r.state with current_waypoint_index := 1 }

/-- Lines 383-388: the calls of `loop` made by the `while` loop, one for each
element of `tfs` (the transform tree at that tick), from the globals `s`. The
result is `none` when one of the ticks reads the waypoints out of bounds. -/
def ticks (m : Math K) (s : State K) : List (Tf K) → Option (State K)
  | [] => some s
  | tf :: tfs =>
      match loop m tf s with
      | none => none
      | some out => ticks m out.state tfs

end Program

/-! ## Worked inputs -/

/-- Numeric routines for the worked inputs: `sqrt` is exact on squares, the
bearing `0` is exact for a target straight ahead on the x axis, the yaw `0` is
the yaw of the identity rotation; the projection is a stand-in. -/
def exampleMath : Math ℚ :=
  { sqrt := fun q => Rat.sqrt q
    atan2 := fun _ _ => 0
    getRPY := fun _ => (0, 0, 0)
    LLtoUTM := fun lati longi => (lati, longi) }

/-- The transform of the robot in `exampleTf`: at the origin of `map`, facing
along x. -/
def robotAtOrigin : Transform ℚ :=
  { translation := { x := 0, y := 0, z := 0 }
    rotation := { x := 0, y := 0, z := 0, w := 1 } }

/-- A transform tree for the worked inputs: the robot stands at the origin of
`map`, the origin of `odom` lies at `(10, 0)` of `map` with the same axes, and
no transform from `utm` is available. -/
def exampleTf : Tf ℚ :=
  { transformPoint := fun _ frame_in p => if frame_in = "utm" then none else some p
    transformPose := fun _ frame_in p =>
      if frame_in = "odom" then
        some { p with position := { p.position with x := p.position.x + 10 } }
      else if frame_in = "utm" then none
      else some p
    lookupTransform := fun _ _ => some robotAtOrigin }

/-- The transform tree `exampleTf` at a moment when the robot cannot be found. -/
def lostTf : Tf ℚ :=
  { exampleTf with lookupTransform := fun _ _ => none }

/-- The transform tree `exampleTf` with `utm` laid over `map`. -/
def utmTf : Tf ℚ :=
  { exampleTf with transformPoint := fun _ _ p => some p }

/-- Parameters with the local waypoints `(1, 0)` and `(0.4, 0)` only. -/
def twoLocal : Params ℚ :=
  { baselink_frame := none
    map_frame := none
    odom_frame := none
    launch_frame := none
    include_start_pose := none
    waypoints := some
      [XmlRpcValue.int 1, XmlRpcValue.int 0, XmlRpcValue.double 0.4, XmlRpcValue.int 0]
    gps_waypoints := none }

/-- Parameters with the single local waypoint `(0.4, 0)`. -/
def oneLocal : Params ℚ :=
  { twoLocal with waypoints := some [XmlRpcValue.double 0.4, XmlRpcValue.int 0] }

/-- Parameters with two local waypoints and a geographic list of one value. -/
def oddGps : Params ℚ :=
  { twoLocal with gps_waypoints := some [XmlRpcValue.int 5] }

/-- Parameters with one geographic pair and no local waypoint. -/
def oneGps : Params ℚ :=
  { twoLocal with
    waypoints := none
    gps_waypoints := some [XmlRpcValue.int (-35), XmlRpcValue.int 138] }

/-- The local waypoint `(0.4, 0)` as `loadParams` stores it. -/
def nearTarget : PoseStamped ℚ :=
  { header := { frame_id := "odom" }
    pose := { position := { x := 0.4, y := 0, z := 0 }
              orientation := { x := 0, y := 0, z := 0, w := 1 } } }

/-- The local waypoint `(1, 0)` as `loadParams` stores it. -/
def farTarget : PoseStamped ℚ :=
  { header := { frame_id := "odom" }
    pose := { position := { x := 1, y := 0, z := 0 }
              orientation := { x := 0, y := 0, z := 0, w := 1 } } }

/-- The globals with which `main` enters its loop for `twoLocal`. -/
def running : State ℚ :=
  { waypoint_array := [farTarget, nearTarget]
    current_waypoint_index := 1
    map_frame := "map"
    odom_frame := "odom"
    baselink_frame := "base_link"
    launch_frame := "odom"
    include_start_pose := true
    enabled := true }

/-- The globals with which `main` enters its loop for `oneLocal`. -/
def atEnd : State ℚ :=
  { running with waypoint_array := [nearTarget] }

/-! ## The control tick, case by case -/

section Lemmas

variable {K : Type} [LinearOrderedField K]

/-- A tick of a session that is off or not started only publishes the path. -/
theorem loop_of_idle (m : Math K) (tf : Tf K) (s : State K)
    (h : s.enabled = false ∨ s.current_waypoint_index < 0) :
    loop m tf s =
      some { state := s, path := publishWaypointPaths tf s, cmd_vel := none, log := none } := by
  simp only [loop, if_pos h]

/-- A tick whose lookup of the robot fails only publishes the path. -/
theorem loop_of_lookup_failed (m : Math K) (tf : Tf K) (s : State K)
    (h : ¬ (s.enabled = false ∨ s.current_waypoint_index < 0))
    (hl : lookupTransform tf s.map_frame s.baselink_frame = none) :
    loop m tf s =
      some { state := s, path := publishWaypointPaths tf s, cmd_vel := none, log := none } := by
  simp only [loop, if_neg h, hl]

/-- A tick that finds the robot and reads `ps` at the cursor runs `command`. -/
theorem loop_of_target (m : Math K) (tf : Tf K) (s : State K) (T : Transform K)
    (ps : PoseStamped K) (h : ¬ (s.enabled = false ∨ s.current_waypoint_index < 0))
    (hl : lookupTransform tf s.map_frame s.baselink_frame = some T)
    (hps : s.waypoint_array[toSizeT s.current_waypoint_index]? = some ps) :
    loop m tf s = some (command m s (publishWaypointPaths tf s) T ps) := by
  simp only [loop, if_neg h, hl, hps]

/-- One tick from a state in which an enabled session has its cursor on a
waypoint: the tick is defined, the waypoints stay, the cursor moves by 0 or 1,
an enabled session still has its cursor on a waypoint, and a session that is
off stays as it is. -/
theorem loop_step (m : Math K) (tf : Tf K) (s : State K)
    (hs : s.enabled = true → s.current_waypoint_index < (s.waypoint_array.length : Int)) :
    ∃ out, loop m tf s = some out ∧
      out.state.waypoint_array = s.waypoint_array ∧
      s.current_waypoint_index ≤ out.state.current_waypoint_index ∧
      out.state.current_waypoint_index ≤ s.current_waypoint_index + 1 ∧
      (out.state.enabled = true →
        out.state.current_waypoint_index < (s.waypoint_array.length : Int)) ∧
      (s.enabled = false →
        out.state.enabled = false ∧
        out.state.current_waypoint_index = s.current_waypoint_index) := by
  by_cases h1 : s.enabled = false ∨ s.current_waypoint_index < 0
  · rw [loop_of_idle m tf s h1]
    exact ⟨_, rfl, rfl, le_refl _, by simp, hs, fun h => ⟨h, rfl⟩⟩
  · cases hl : lookupTransform tf s.map_frame s.baselink_frame with
    | none =>
      rw [loop_of_lookup_failed m tf s h1 hl]
      exact ⟨_, rfl, rfl, le_refl _, by simp, hs, fun h => ⟨h, rfl⟩⟩
    | some T =>
      have hen : s.enabled = true := by
        cases h : s.enabled
        · exact absurd (Or.inl h) h1
        · rfl
      have hc : 0 ≤ s.current_waypoint_index := by
        by_contra h
        exact h1 (Or.inr (not_le.mp h))
      have hlt := hs hen
      have hidx : toSizeT s.current_waypoint_index < s.waypoint_array.length := by
        simp only [toSizeT]; omega
      have hps : s.waypoint_array[toSizeT s.current_waypoint_index]? =
          some (s.waypoint_array[toSizeT s.current_waypoint_index]) :=
        List.getElem?_eq_getElem hidx
      rw [loop_of_target m tf s T _ h1 hl hps]
      refine ⟨_, rfl, ?_, ?_, ?_, ?_, ?_⟩
      · simp only [command]; split_ifs <;> rfl
      · simp only [command]; split_ifs <;> simp
      · simp only [command]; split_ifs <;> simp
      · simp only [command]
        split_ifs with hd hN
        · intro _; exact hlt
        · simp
        · intro _
          simp only [ge_iff_le, not_le, toSizeT, size] at hN
          show s.current_waypoint_index + 1 < (s.waypoint_array.length : Int)
          omega
      · intro h
        rw [hen] at h
        cases h

/-- A run of ticks is the run of its first part followed by the rest. -/
theorem ticks_append (m : Math K) (s : State K) (tfs tfs2 : List (Tf K)) :
    ticks m s (tfs ++ tfs2) = (ticks m s tfs).bind (fun s1 => ticks m s1 tfs2) := by
  induction tfs generalizing s with
  | nil => rfl
  | cons tf tfs ih =>
    simp only [List.cons_append, ticks]
    cases loop m tf s with
    | none => rfl
    | some out => exact ih out.state

/-- A run of ticks from a state in which an enabled session has its cursor on
a waypoint is defined and ends in such a state, the cursor not below its start. -/
theorem ticks_run (m : Math K) (tfs : List (Tf K)) : ∀ (s : State K),
    (s.enabled = true → s.current_waypoint_index < (s.waypoint_array.length : Int)) →
    ∃ s1, ticks m s tfs = some s1 ∧
      s1.waypoint_array = s.waypoint_array ∧
      s.current_waypoint_index ≤ s1.current_waypoint_index ∧
      (s1.enabled = true → s1.current_waypoint_index < (s.waypoint_array.length : Int)) := by
  induction tfs with
  | nil => intro s hs; exact ⟨s, rfl, rfl, le_refl _, hs⟩
  | cons tf tfs ih =>
    intro s hs
    obtain ⟨out, hout, hw, hle, _, hleg, _⟩ := loop_step m tf s hs
    obtain ⟨s1, hs1, hw1, hle1, hleg1⟩ := ih out.state (by rw [hw]; exact hleg)
    refine ⟨s1, ?_, hw1.trans hw, le_trans hle hle1, ?_⟩
    · simp only [ticks, hout, hs1]
    · rw [hw] at hleg1; exact hleg1

/-! ## The path loop -/

/-- The path loop stops at once when its test fails. -/
theorem pathLoop_of_not_lt (tf : Tf K) (s : State K) (i : Int) (vec : List (PoseStamped K))
    (h : ¬ toSizeT i < size s.waypoint_array) : pathLoop tf s i vec = vec := by
  rw [pathLoop, dif_neg h]

/-- From a counter value `i` within the waypoints the path loop pushes the
entries of the waypoints from index `i` on, in order. -/
theorem pathLoop_from (tf : Tf K) (s : State K) (hN : s.waypoint_array.length < 2 ^ 64) :
    ∀ (k i : Nat) (vec : List (PoseStamped K)), i + k = s.waypoint_array.length →
      pathLoop tf s (i : Int) vec =
        vec ++ (s.waypoint_array.drop i).map (pathEntry tf s.map_frame) := by
  intro k
  induction k with
  | zero =>
    intro i vec hi
    rw [pathLoop_of_not_lt]
    · simp [← hi]
    · simp only [toSizeT, size]; omega
  | succ k ih =>
    intro i vec hi
    have hlt : toSizeT (i : Int) < size s.waypoint_array := by
      simp only [toSizeT, size]; omega
    have hi' : toSizeT (i : Int) = i := by simp only [toSizeT]; omega
    rw [pathLoop, dif_pos hlt, if_neg (by omega)]
    have := ih (i + 1) (vec ++ [pathEntry tf s.map_frame
      (s.waypoint_array.get ⟨toSizeT (i : Int), lt_of_lt_of_le hlt (Nat.mod_le _ _)⟩)]) (by omega)
    simp only [Nat.cast_add, Nat.cast_one] at this
    simp only [this]
    have hil : i < s.waypoint_array.length := by omega
    rw [List.drop_eq_getElem_cons hil, List.map_cons, List.append_assoc]
    simp only [List.get_eq_getElem, hi', List.singleton_append]

/-- With the cursor at `c` within the waypoints, the published path is the
start pose, if asked for, and then the entries of the waypoints from `c` on. -/
theorem publishWaypointPaths_poses (tf : Tf K) (s : State K) (c : Nat)
    (hc : s.current_waypoint_index = (c : Int)) (hcN : c ≤ s.waypoint_array.length)
    (hN : s.waypoint_array.length < 2 ^ 64) :
    (publishWaypointPaths tf s).poses =
      (if s.include_start_pose then
        [{ header := { frame_id := s.baselink_frame }
           pose := (convertPoseFrame tf
              { position := { x := 0, y := 0, z := 0 }
                orientation := { x := 0, y := 0, z := 0, w := 1 } }
              s.baselink_frame s.map_frame).1 }]
       else []) ++ (s.waypoint_array.drop c).map (pathEntry tf s.map_frame) := by
  obtain ⟨k, hk⟩ := Nat.exists_eq_add_of_le hcN
  simp only [publishWaypointPaths, hc]
  rw [pathLoop_from tf s hN k c _ hk.symm]
  rfl

/-! ## The loading loops -/

/-- The loop over `2 * n` local values gives `n` waypoints, the `k`-th made of
the values `2 * k` and `2 * k + 1`. -/
theorem localWaypoints_spec (launch_frame : String) : ∀ (n : Nat) (vals : List K),
    vals.length = 2 * n →
    (localWaypoints launch_frame vals).length = n ∧
    ∀ k, k < n → ∃ x y, vals[2 * k]? = some x ∧ vals[2 * k + 1]? = some y ∧
      (localWaypoints launch_frame vals)[k]? = some
        { header := { frame_id := launch_frame }
          pose := { position := { x := x, y := y, z := 0 }
                    orientation := { x := 0, y := 0, z := 0, w := 1 } } } := by
  intro n
  induction n with
  | zero =>
    intro vals h
    have : vals = [] := List.length_eq_zero.mp (by simpa using h)
    subst this
    exact ⟨rfl, fun k hk => absurd hk (Nat.not_lt_zero k)⟩
  | succ n ih =>
    intro vals h
    match vals, h with
    | x :: y :: rest, h =>
      have hr : rest.length = 2 * n := by simp only [List.length_cons] at h; omega
      obtain ⟨hlen, hget⟩ := ih rest hr
      refine ⟨by simp only [localWaypoints, List.length_cons, hlen], ?_⟩
      intro k hk
      cases k with
      | zero => exact ⟨x, y, rfl, by simp, by simp [localWaypoints, Quaternion.zero]⟩
      | succ j =>
        obtain ⟨x', y', hx, hy, hw⟩ := hget j (by omega)
        refine ⟨x', y', ?_, ?_, ?_⟩
        · rw [show 2 * (j + 1) = 2 * j + 1 + 1 by ring]
          simpa using hx
        · rw [show 2 * (j + 1) + 1 = 2 * j + 1 + 1 + 1 by ring]
          simpa using hy
        · simpa [localWaypoints] using hw

/-! ## Runs of ticks -/

/-- From a state in which an enabled session has its cursor on a waypoint, any
sequence of ticks `tfs` and one more tick `tf` are defined; with `s1` the state
before the last tick and `s2` the state after it, the cursor of `s2` is the
cursor of `s1` or that plus `1`, a cursor equal to the number of waypoints
comes with a disabled session, and a disabled session stays as it is. -/
theorem ticks_cursor_monotone (m : Math K) (s : State K) (tfs : List (Tf K)) (tf : Tf K)
    (hs : s.enabled = true → s.current_waypoint_index < (s.waypoint_array.length : Int)) :
    ∃ s1 s2 out, ticks m s tfs = some s1 ∧ loop m tf s1 = some out ∧ out.state = s2 ∧
      ticks m s (tfs ++ [tf]) = some s2 ∧
      s2.waypoint_array = s.waypoint_array ∧
      s.current_waypoint_index ≤ s1.current_waypoint_index ∧
      s1.current_waypoint_index ≤ s2.current_waypoint_index ∧
      s2.current_waypoint_index ≤ s1.current_waypoint_index + 1 ∧
      (s2.current_waypoint_index = (s.waypoint_array.length : Int) → s2.enabled = false) ∧
      (s1.enabled = false →
        s2.enabled = false ∧ s2.current_waypoint_index = s1.current_waypoint_index) := by
  obtain ⟨s1, hs1, hw1, hle1, hleg1⟩ := ticks_run m tfs s hs
  obtain ⟨out, hout, hw, hle, hle', hleg, hoff⟩ := loop_step m tf s1 (by rw [hw1]; exact hleg1)
  refine ⟨s1, out.state, out, hs1, hout, rfl, ?_, hw.trans hw1, hle1, hle, hle', ?_, hoff⟩
  · rw [ticks_append, hs1]
    simp only [Option.bind, ticks, hout]
  · intro hN
    cases hen : out.state.enabled with
    | false => rfl
    | true =>
      have := hleg hen
      rw [hw1] at this
      omega

/-- Whatever was loaded, `main` enters its loop with the cursor at `1` and the
session enabled; an enabled session then has its cursor on a waypoint exactly
when at least two waypoints were loaded. -/
theorem mainInit_start (m : Math K) (tf : Tf K) (p : Params K) (s : State K)
    (h : mainInit m tf p = some s) :
    s.current_waypoint_index = 1 ∧ s.enabled = true ∧
    ((s.enabled = true → s.current_waypoint_index < (s.waypoint_array.length : Int)) ↔
      2 ≤ s.waypoint_array.length) := by
  have hen : (loadParams m tf p initialState).state.enabled = true := by
    simp only [loadParams]
    split_ifs <;> rfl
  simp only [mainInit] at h
  split_ifs at h
  cases h
  refine ⟨rfl, hen, ?_⟩
  simp only [hen, forall_const]
  omega

/-! ## The worked inputs -/

/-- The target of the first tick for `twoLocal` is its second waypoint. -/
theorem running_target :
    running.waypoint_array[toSizeT running.current_waypoint_index]? = some nearTarget := by
  rfl

/-- The `sqrt` of the worked inputs is exact on squares. -/
theorem exampleMath_sqrt (x : ℚ) : exampleMath.sqrt (x * x) = |x| := Rat.sqrt_eq x

/-- The control law on the first tick for `twoLocal`, the robot at the origin. -/
theorem command_running (path : Path ℚ) :
    command exampleMath running path robotAtOrigin nearTarget =
      { state := { running with current_waypoint_index := 2, enabled := false }
        path := path
        cmd_vel := some
          { linear := { x := 0, y := 0, z := 0 }, angular := { x := 0, y := 0, z := 0 } }
        log := some { dx := 0.4, dy := 0, dist := 0.4, ang := 0 } } := by
  have hd : exampleMath.sqrt ((0.4 - 0) * (0.4 - 0) + (0 - 0) * (0 - 0)) = 0.4 := by
    have h := exampleMath_sqrt 0.4
    rw [abs_of_nonneg (by norm_num)] at h
    have e : ((0.4 : ℚ) - 0) * (0.4 - 0) + (0 - 0) * (0 - 0) = 0.4 * 0.4 := by norm_num
    rw [e, h]
  simp only [command, robotAtOrigin, nearTarget, hd]
  have ha : exampleMath.atan2 (0 - 0) (0.4 - 0) = 0 := rfl
  have hy : (exampleMath.getRPY { x := 0, y := 0, z := 0, w := 1 }).2.2 = 0 := rfl
  have hyv : yawVelocity exampleMath (headingError (0 : ℚ) 0) = 0 := by
    have h0 := exampleMath_sqrt 0
    simp only [mul_zero, abs_zero] at h0
    norm_num [yawVelocity, headingError, h0]
  rw [ha, hy, hyv]
  have hlt : ¬ ((0.4 : ℚ) > 0.5) := by norm_num
  simp only [if_neg hlt]
  have hr : running.current_waypoint_index + 1 = 2 := rfl
  simp only [hr]
  norm_num [running, Point.zero, headingError, size, toSizeT]

/-- While the robot cannot be found, the ticks for `oneLocal` change nothing. -/
theorem ticks_lost (n : Nat) : ticks exampleMath atEnd (List.replicate n lostTf) = some atEnd := by
  induction n with
  | zero => rfl
  | succ n ih =>
    have h := loop_of_lookup_failed exampleMath lostTf atEnd (by decide) rfl
    simp only [List.replicate_succ, ticks, h, ih]

/-! ## The claims -/

/-- C1 (fails on the code). The tick measures its offsets on the coordinates
as stored, whatever frame the target is tagged with. For `twoLocal`, `main`
enters its loop in `running`; the first tick passes its guards and its target
is `(0.4, 0)` of `odom`, which is `(10.4, 0)` of the working frame `map` and is
published so in the path of the same tick. The tick prints `dx = 0.4`,
`dist = 0.4`, takes the waypoint as reached, commands no forward speed and
ends the session. -/
theorem loop_reads_stored_target :
    mainInit exampleMath exampleTf twoLocal = some running ∧
    running.enabled = true ∧ 0 ≤ running.current_waypoint_index ∧
    lookupTransform exampleTf running.map_frame running.baselink_frame = some robotAtOrigin ∧
    running.waypoint_array[toSizeT running.current_waypoint_index]? = some nearTarget ∧
    nearTarget.header.frame_id ≠ running.map_frame ∧
    convertPoseFrame exampleTf nearTarget.pose nearTarget.header.frame_id running.map_frame =
      ({ nearTarget.pose with position := { x := 10.4, y := 0, z := 0 } }, true) ∧
    ∃ out, loop exampleMath exampleTf running = some out ∧
      out.log = some { dx := 0.4, dy := 0, dist := 0.4, ang := 0 } ∧
      out.cmd_vel = some
        { linear := { x := 0, y := 0, z := 0 }, angular := { x := 0, y := 0, z := 0 } } ∧
      out.state.current_waypoint_index = 2 ∧ out.state.enabled = false ∧
      out.path.poses.getLast? = some
        { header := { frame_id := "map" }
          pose := { nearTarget.pose with position := { x := 10.4, y := 0, z := 0 } } } := by
  refine ⟨rfl, rfl, by decide, rfl, running_target, by decide, ?_, ?_⟩
  · simp only [convertPoseFrame, exampleTf, nearTarget]
    norm_num
  · rw [loop_of_target exampleMath exampleTf running robotAtOrigin nearTarget (by decide) rfl
      running_target, command_running]
    refine ⟨_, rfl, rfl, rfl, rfl, rfl, ?_⟩
    rw [publishWaypointPaths_poses exampleTf running 1 rfl (by decide) (by decide)]
    simp [running, farTarget, nearTarget, pathEntry, convertPoseFrame, exampleTf]
    norm_num

/-- C2 (fails on the code). `main` sets the cursor to `1` whatever was loaded,
with the session enabled. For `oneLocal` the waypoints are `[(0.4, 0)]`, so the
loop is entered in `atEnd`, with the cursor equal to the number of waypoints
and the session enabled, and the first tick that finds the robot reads index
`1` of a vector of size `1`. -/
theorem main_starts_at_index_one :
    mainInit exampleMath exampleTf oneLocal = some atEnd ∧
    atEnd.waypoint_array = [nearTarget] ∧
    atEnd.current_waypoint_index = 1 ∧
    atEnd.enabled = true ∧
    lookupTransform exampleTf atEnd.map_frame atEnd.baselink_frame = some robotAtOrigin ∧
    loop exampleMath exampleTf atEnd = none ∧
    ∀ (m : Math ℚ) (tf : Tf ℚ) (p : Params ℚ) (s : State ℚ), mainInit m tf p = some s →
      s.current_waypoint_index = 1 ∧ s.enabled = true := by
  refine ⟨rfl, rfl, rfl, rfl, rfl, by decide, ?_⟩
  intro m tf p s h
  exact ⟨(mainInit_start m tf p s h).1, (mainInit_start m tf p s h).2.1⟩

/-- C5 (fails on the code). For `oneLocal`, `main` enters its loop in `atEnd`:
the cursor is at `1`, the number of waypoints, and the session is enabled.
While the robot cannot be found every tick returns at the lookup and changes
nothing, so after any number of ticks the cursor is still at the number of
waypoints and the session is still enabled; the first tick that finds the robot
reads the waypoints out of bounds. -/
theorem cursor_at_count_stays_enabled :
    mainInit exampleMath exampleTf oneLocal = some atEnd ∧
    atEnd.current_waypoint_index = (atEnd.waypoint_array.length : Int) ∧
    atEnd.enabled = true ∧
    lookupTransform lostTf atEnd.map_frame atEnd.baselink_frame = none ∧
    loop exampleMath lostTf atEnd =
      some { state := atEnd, path := publishWaypointPaths lostTf atEnd,
             cmd_vel := none, log := none } ∧
    (∀ n : Nat, ∃ s, ticks exampleMath atEnd (List.replicate n lostTf) = some s ∧
      s.current_waypoint_index = (s.waypoint_array.length : Int) ∧ s.enabled = true) ∧
    loop exampleMath exampleTf atEnd = none := by
  refine ⟨rfl, rfl, rfl, rfl, ?_, ?_, by decide⟩
  · exact loop_of_lookup_failed exampleMath lostTf atEnd (by decide) rfl
  · intro n
    exact ⟨atEnd, ticks_lost n, rfl, rfl⟩

/-- C6. For every real bearing and yaw in `(-π, π]`, the heading error of the
tick (their difference, lowered by `2 * 3.1415` when above `3.1415`, then
raised by `2 * 3.1415` when below `-3.1415`) lies in `(-π, π]`. -/
theorem headingError_range (bearing yaw : ℝ)
    (hb : -Real.pi < bearing ∧ bearing ≤ Real.pi) (hy : -Real.pi < yaw ∧ yaw ≤ Real.pi) :
    -Real.pi < headingError bearing yaw ∧ headingError bearing yaw ≤ Real.pi := by
  have h1 := Real.pi_gt_d6
  have h2 := Real.pi_lt_d6
  unfold headingError
  simp only []
  split_ifs <;> constructor <;> norm_num at * <;> linarith

/-- C6 at bearing `3` and yaw `-3`, where the first adjustment fires. -/
theorem headingError_range_witness :
    ((-Real.pi < (3 : ℝ) ∧ (3 : ℝ) ≤ Real.pi) ∧
    (-Real.pi < (-3 : ℝ) ∧ (-3 : ℝ) ≤ Real.pi)) ∧
    (-Real.pi < headingError (3 : ℝ) (-3 : ℝ) ∧ headingError (3 : ℝ) (-3 : ℝ) ≤ Real.pi) :=
  ⟨⟨⟨by linarith [Real.pi_gt_three], by linarith [Real.pi_gt_three]⟩,
      ⟨by linarith [Real.pi_gt_three], by linarith [Real.pi_gt_three]⟩⟩,
    headingError_range 3 (-3)
      ⟨by linarith [Real.pi_gt_three], by linarith [Real.pi_gt_three]⟩
      ⟨by linarith [Real.pi_gt_three], by linarith [Real.pi_gt_three]⟩⟩

/-- C7 (fails on the code). For `oddGps` the geographic list has one value:
`loadParams` prints its error line and returns, `main` goes on and enters its
loop in `running`, with the two local waypoints and the session enabled, and
the first tick passes its guards and publishes a velocity command. -/
theorem odd_list_enters_loop :
    (paramValues oddGps.gps_waypoints).length % 2 = 1 ∧
    (loadParams exampleMath exampleTf oddGps initialState).error =
      some "INCORRECT NUMBER OF GPS WAYPOINT VALUES" ∧
    mainInit exampleMath exampleTf oddGps = some running ∧
    running.enabled = true ∧
    ∃ out cmd, loop exampleMath exampleTf running = some out ∧ out.cmd_vel = some cmd := by
  refine ⟨rfl, rfl, rfl, rfl, ?_⟩
  rw [loop_of_target exampleMath exampleTf running robotAtOrigin nearTarget (by decide) rfl
    running_target]
  exact ⟨_, _, rfl, rfl⟩

/-- C7 as amended. When the local or the geographic list has an odd number of
values, `loadParams` prints an error line and loads nothing from that list on:
an odd local list leaves the waypoints empty, an odd geographic list after an
even local list leaves exactly the local waypoints. Loading does not stop the
process: `main` goes on to its loop with what was loaded and the session
enabled. -/
theorem loadParams_odd_list (m : Math K) (tf : Tf K) (p : Params K)
    (hodd : (paramValues p.waypoints).length % 2 = 1 ∨
      (paramValues p.gps_waypoints).length % 2 = 1) :
    (loadParams m tf p initialState).error ≠ none ∧
    ((paramValues p.waypoints).length % 2 = 1 →
      (loadParams m tf p initialState).error = some "INCORRECT NUMBER OF WAYPOINT VALUES" ∧
      (loadParams m tf p initialState).state.waypoint_array = []) ∧
    ((paramValues p.waypoints).length % 2 = 0 →
      (loadParams m tf p initialState).error =
        some "INCORRECT NUMBER OF GPS WAYPOINT VALUES" ∧
      (loadParams m tf p initialState).state.waypoint_array =
        localWaypoints (p.launch_frame.getD (p.odom_frame.getD "odom"))
          (paramValues p.waypoints)) ∧
    (loadParams m tf p initialState).undefined = false ∧
    (loadParams m tf p initialState).state.enabled = true ∧
    mainInit m tf p =
      some { (loadParams m tf p initialState).state with current_waypoint_index := 1 } := by
  have hen : (loadParams m tf p initialState).state.enabled = true := by
    simp only [loadParams]
    split_ifs <;> rfl
  by_cases h1 : (paramValues p.waypoints).length % 2 = 1
  · have h1' : (paramValues p.waypoints).length % 2 ≠ 0 := by omega
    have hu : (loadParams m tf p initialState).undefined = false := by
      simp only [loadParams, if_pos h1']
    refine ⟨?_, ?_, ?_, hu, hen, ?_⟩
    · simp only [loadParams, if_pos h1']
      exact Option.some_ne_none _
    · intro _
      constructor <;> simp only [loadParams, if_pos h1', initialState]
    · intro h0; omega
    · simp only [mainInit, hu]
      rfl
  · have h0 : ¬ (paramValues p.waypoints).length % 2 ≠ 0 := by omega
    have h2 : (paramValues p.gps_waypoints).length % 2 ≠ 0 := by
      rcases hodd with h | h
      · exact absurd h h1
      · omega
    have hu : (loadParams m tf p initialState).undefined = false := by
      simp only [loadParams, if_neg h0, if_pos h2]
    refine ⟨?_, ?_, ?_, hu, hen, ?_⟩
    · simp only [loadParams, if_neg h0, if_pos h2]
      exact Option.some_ne_none _
    · intro h; exact absurd h h1
    · intro _
      constructor <;> simp only [loadParams, if_neg h0, if_pos h2, initialState, List.nil_append]
    · simp only [mainInit, hu]
      rfl

/-- C7 as amended, at `oddGps`: two local waypoints and a geographic list of one value. -/
theorem loadParams_odd_list_witness :
    (((paramValues oddGps.waypoints).length % 2 = 1 ∨
      (paramValues oddGps.gps_waypoints).length % 2 = 1)) ∧
    ((loadParams exampleMath exampleTf oddGps initialState).error ≠ none ∧
    ((paramValues oddGps.waypoints).length % 2 = 1 →
      (loadParams exampleMath exampleTf oddGps initialState).error = some "INCORRECT NUMBER OF WAYPOINT VALUES" ∧
      (loadParams exampleMath exampleTf oddGps initialState).state.waypoint_array = []) ∧
    ((paramValues oddGps.waypoints).length % 2 = 0 →
      (loadParams exampleMath exampleTf oddGps initialState).error =
        some "INCORRECT NUMBER OF GPS WAYPOINT VALUES" ∧
      (loadParams exampleMath exampleTf oddGps initialState).state.waypoint_array =
        localWaypoints (oddGps.launch_frame.getD (oddGps.odom_frame.getD "odom"))
          (paramValues oddGps.waypoints)) ∧
    (loadParams exampleMath exampleTf oddGps initialState).undefined = false ∧
    (loadParams exampleMath exampleTf oddGps initialState).state.enabled = true ∧
    mainInit exampleMath exampleTf oddGps =
      some { (loadParams exampleMath exampleTf oddGps initialState).state with current_waypoint_index := 1 }) :=
  ⟨Or.inr rfl, loadParams_odd_list exampleMath exampleTf oddGps (Or.inr rfl)⟩

/-- C8 (fails on the code). For `oneGps` the geographic list has one pair. With
no transform from `utm` available (`exampleTf`), `convertUTMtoMap` returns
`false`, which is not read: loading is defined and stores the waypoint with its
projected coordinates and the tag `utm`, which is not the working frame `map`.
With the transform available (`utmTf`), control reaches the end of
`convertUTMtoMap` without a `return`: loading is undefined from there and
`main` does not reach its loop in a defined state. -/
theorem gps_entry_keeps_utm :
    (paramValues oneGps.gps_waypoints).length = 2 * 1 ∧
    (loadParams exampleMath exampleTf oneGps initialState).undefined = false ∧
    (loadParams exampleMath exampleTf oneGps initialState).state.map_frame = "map" ∧
    (loadParams exampleMath exampleTf oneGps initialState).state.waypoint_array =
      [{ header := { frame_id := "utm" }
         pose := { position := { x := 138, y := -35, z := 0 }
                   orientation := { x := 0, y := 0, z := 0, w := 1 } } }] ∧
    "utm" ≠ (loadParams exampleMath exampleTf oneGps initialState).state.map_frame ∧
    (loadParams exampleMath utmTf oneGps initialState).undefined = true ∧
    mainInit exampleMath utmTf oneGps = none := by
  refine ⟨rfl, rfl, rfl, rfl, by decide, rfl, rfl⟩

/-- C9. When the local list has `2 * n` values, the loaded waypoints are `n`
local entries followed by the entries pushed for the geographic list (`rest`); for
`k < n` the entry `k` has the position `(values[2 * k], values[2 * k + 1])`,
the identity orientation and the launch frame as its tag. -/
theorem loadParams_local_entries (m : Math K) (tf : Tf K) (p : Params K) (n : Nat)
    (hlen : (paramValues p.waypoints).length = 2 * n) :
    ∃ rest,
      (loadParams m tf p initialState).state.launch_frame =
        p.launch_frame.getD (p.odom_frame.getD "odom") ∧
      (loadParams m tf p initialState).state.waypoint_array =
        localWaypoints (p.launch_frame.getD (p.odom_frame.getD "odom")) (paramValues p.waypoints)
          ++ rest ∧
      (localWaypoints (p.launch_frame.getD (p.odom_frame.getD "odom"))
        (paramValues p.waypoints)).length = n ∧
      rest =
        (if (paramValues p.gps_waypoints).length % 2 ≠ 0 then []
         else (gpsWaypoints m tf (p.map_frame.getD "map")
            (paramValues p.gps_waypoints)).waypoints) ∧
      ∀ k, k < n → ∃ x y,
        (paramValues p.waypoints)[2 * k]? = some x ∧
        (paramValues p.waypoints)[2 * k + 1]? = some y ∧
        (loadParams m tf p initialState).state.waypoint_array[k]? = some
          { header := { frame_id := p.launch_frame.getD (p.odom_frame.getD "odom") }
            pose := { position := { x := x, y := y, z := 0 }
                      orientation := { x := 0, y := 0, z := 0, w := 1 } } } := by
  have heven : ¬ (paramValues p.waypoints).length % 2 ≠ 0 := by omega
  obtain ⟨hl, hget⟩ := localWaypoints_spec (p.launch_frame.getD (p.odom_frame.getD "odom")) n
    (paramValues p.waypoints) hlen
  have hstore : (loadParams m tf p initialState).state.waypoint_array =
      localWaypoints (p.launch_frame.getD (p.odom_frame.getD "odom")) (paramValues p.waypoints)
        ++ (if (paramValues p.gps_waypoints).length % 2 ≠ 0 then []
            else (gpsWaypoints m tf (p.map_frame.getD "map")
              (paramValues p.gps_waypoints)).waypoints) := by
    simp only [loadParams, if_neg heven, initialState, List.nil_append]
    split_ifs <;> simp
  refine ⟨_, ?_, hstore, hl, rfl, ?_⟩
  · simp only [loadParams, if_neg heven]
    split_ifs <;> rfl
  · intro k hk
    obtain ⟨x, y, hx, hy, hw⟩ := hget k hk
    refine ⟨x, y, hx, hy, ?_⟩
    rw [hstore, List.getElem?_append_left (by omega)]
    exact hw

/-- C9 at `twoLocal`: four local values, two waypoints. -/
theorem loadParams_local_entries_witness :
    (((paramValues twoLocal.waypoints).length = 2 * 2)) ∧
    (∃ rest,
      (loadParams exampleMath exampleTf twoLocal initialState).state.launch_frame =
        twoLocal.launch_frame.getD (twoLocal.odom_frame.getD "odom") ∧
      (loadParams exampleMath exampleTf twoLocal initialState).state.waypoint_array =
        localWaypoints (twoLocal.launch_frame.getD (twoLocal.odom_frame.getD "odom")) (paramValues twoLocal.waypoints)
          ++ rest ∧
      (localWaypoints (twoLocal.launch_frame.getD (twoLocal.odom_frame.getD "odom"))
        (paramValues twoLocal.waypoints)).length = 2 ∧
      rest =
        (if (paramValues twoLocal.gps_waypoints).length % 2 ≠ 0 then []
         else (gpsWaypoints exampleMath exampleTf (twoLocal.map_frame.getD "map")
            (paramValues twoLocal.gps_waypoints)).waypoints) ∧
      ∀ k, k < 2 → ∃ x y,
        (paramValues twoLocal.waypoints)[2 * k]? = some x ∧
        (paramValues twoLocal.waypoints)[2 * k + 1]? = some y ∧
        (loadParams exampleMath exampleTf twoLocal initialState).state.waypoint_array[k]? = some
          { header := { frame_id := twoLocal.launch_frame.getD (twoLocal.odom_frame.getD "odom") }
            pose := { position := { x := x, y := y, z := 0 }
                      orientation := { x := 0, y := 0, z := 0, w := 1 } } }) :=
  ⟨rfl, loadParams_local_entries exampleMath exampleTf twoLocal 2 rfl⟩

end Lemmas

end WaypointFollower
